import Mathlib

/-!
# Verification of the security_monkey task-scheduling core

A shallow embedding of `security_monkey/task_scheduler/tasks.py` (together
with the Celery wiring in `security_monkey/task_scheduler/util.py`), and
proofs about the claims of the specification.

The embedding follows the Python source function by function:

* `setup_the_tasks` (tasks.py lines 39-88): the scheduler bootstrapper,
  modelled as a pure function from the account list and the per-account
  monitor list to the list of Celery registrations it performs.
* `find_changes`, `batch_logic`, `audit_changes`, `_audit_changes`,
  `_audit_specific_changes`, `reporter_logic` (tasks.py lines 142-341):
  modelled as pure functions returning the trace of externally visible
  actions (an `Event` list) paired with an `Except` value that is `.ok`
  when the Python function returns normally and `.error e` when it exits
  with the (uncaught) exception `e`.
* `task_account_tech` and `task_audit` (tasks.py lines 91-132): Celery
  tasks declared with `max_retries=3`; the retry driver is modelled by
  `runTask` below.

External collaborators (watchers, auditors, monitor resolution, jira sync)
are modelled as data/function parameters, as the spec directs (§6): their
*behaviour* (which calls succeed, which raise) is an input; the
orchestration logic under verification is translated from the source.
-/

namespace SecMonkey

/-! ## Exceptions

`sqlalchemy.exc.OperationalError, InvalidRequestError, StatementError` are
the three transient-storage fault classes caught by the orchestration code
(tasks.py line 22); every other Python exception is `other`. -/

inductive PyErr where
  | operationalError
  | invalidRequestError
  | statementError
  | other (msg : String)
deriving DecidableEq, Repr

/-- Does this exception match
`except (OperationalError, InvalidRequestError, StatementError)`? -/
def PyErr.isDbError : PyErr → Bool
  | .operationalError => true
  | .invalidRequestError => true
  | .statementError => true
  | .other _ => false

/-! ## Scheduler bootstrapper (`setup_the_tasks`, tasks.py lines 39-88)

The bootstrapper reads accounts and monitors and registers Celery tasks.
Only the fields it reads are modelled. -/

/-- One technology's watcher, as read by the bootstrapper:
`monitor.watcher.index` and `monitor.watcher.get_interval()`. -/
structure Watcher where
  index : String
  get_interval : Nat
deriving DecidableEq, Repr

/-- A monitor as read by the bootstrapper: `monitor.watcher` (may be
`None`) and `monitor.batch_support`. -/
structure Monitor where
  watcher : Option Watcher
  batch_support : Bool
deriving DecidableEq, Repr

/-- An account row: `Account.name`, `Account.active`, `Account.third_party`
(tasks.py line 49 filters on the latter two). -/
structure Account where
  name : String
  active : Bool
  third_party : Bool
deriving DecidableEq, Repr

/-- Which Celery task a registration refers to. -/
inductive TaskKind where
  | accountTech
  | audit
  | clearExpiredExceptions
deriving DecidableEq, Repr

/-- The cadence of a registration: `apply_async` (immediate),
`add_periodic_task interval`, or `add_periodic_task (crontab ...)`. -/
inductive Cadence where
  | immediate
  | everySeconds (n : Nat)
  | weeklyCrontab (hour : Nat) (day_of_week : String)
  | dailyCrontab (hour : Nat) (minute : Nat)
deriving DecidableEq, Repr

/-- One registration performed by `setup_the_tasks`. -/
structure ScheduledTask where
  kind : TaskKind
  args : List String
  cadence : Cadence
deriving DecidableEq, Repr

/-- tasks.py lines 55-73, the body of `for monitor in rep.all_monitors:`
for one monitor of account `account_name`: if the monitor has a watcher,
register an immediate `task_account_tech`, a periodic one at
`get_interval() * 60` seconds, and — only if `not monitor.batch_support` —
a weekly (`crontab(hour=10, day_of_week="mon-fri")`) `task_audit`. -/
def scheduleMonitor (account_name : String) (m : Monitor) : List ScheduledTask :=
  match m.watcher with
  | none => []
  | some w =>
    let interval := w.get_interval * 60
    ⟨.accountTech, [account_name, w.index], .immediate⟩ ::
    ⟨.accountTech, [account_name, w.index], .everySeconds interval⟩ ::
    (if !m.batch_support then
      [⟨.audit, [account_name, w.index], .weeklyCrontab 10 "mon-fri"⟩]
    else [])

/-- tasks.py lines 47-81: iterate the active, first-party accounts
(`Account.third_party == False`, `Account.active == True`), schedule each
monitor of each account, then register the daily
(`crontab(hour=3, minute=0)`) `clear_expired_exceptions` janitor task.
`all_monitors` stands for `Reporter(account=account.name).all_monitors`. -/
def setup_the_tasks (accounts : List Account)
    (all_monitors : String → List Monitor) : List ScheduledTask :=
  ((accounts.filter (fun a => !a.third_party && a.active)).flatMap
    (fun a => (all_monitors a.name).flatMap (scheduleMonitor a.name)))
  ++ [⟨.clearExpiredExceptions, [], .dailyCrontab 3 0⟩]

/-! ## Runtime model: events

The runtime functions return the ordered trace of externally visible
actions they performed. -/

/-- Externally visible actions of the orchestration code. -/
inductive Event where
  /-- a successful `au.audit_objects()` call of the auditor named `au` -/
  | auditObjects (au : String)
  /-- a successful `au.save_issues()` call -/
  | saveIssues (au : String)
  /-- a successful `au.email_report(report)` call -/
  | emailReport (au : String)
  /-- a `jirasync.sync_issues(..., au.index)` call -/
  | jiraSync (au : String)
  /-- a `store_exception(source, None, e)` call -/
  | storeException (source : String)
  /-- a `db.session.remove()` call -/
  | sessionRemove
  /-- a `db.session.close()` call -/
  | sessionClose
  /-- a successful full-snapshot `cw.slurp()` call -/
  | slurpSnapshot
  /-- a `cw.find_changes(...)` call on the snapshot -/
  | snapshotChanges
  /-- a successful `cw.save()` call -/
  | watcherSave
  /-- a batched `cw.slurp()` call returning one page -/
  | slurpPage (items : List Nat)
  /-- a `cw.find_changes(...)` call on one page, returning audit items -/
  | pageChanges (audit_items : List Nat)
  /-- a `cw.find_deleted_batch(account_name)` call -/
  | findDeletedBatch (account : String)
  /-- the `app.logger.error` on total fetch failure (tasks.py lines 273-277) -/
  | logTotalFetchFailure (region : String)
  /-- an `Alerter(monitors, account).report()` call -/
  | alertReport
  /-- the start of the `k`-th execution attempt of a Celery task body -/
  | taskAttempt (k : Nat)
deriving DecidableEq, Repr

/-- The auditor name an event belongs to, when it is an auditor-loop
event (`audit_objects` / `save_issues` / `email_report` / jira sync). -/
def Event.auIndex : Event → Option String
  | .auditObjects s => some s
  | .saveIssues s => some s
  | .emailReport s => some s
  | .jiraSync s => some s
  | _ => none

/-! ## Runtime model: collaborators

Watchers and auditors are external (spec §6); their behaviour on each
call is an input of the model. `List Nat` stands for an opaque item
collection. -/

/-- A fetch-scope tuple: a key of the exception map returned by
`slurp_list` (its third component, when present, is the region). -/
abbrev ExcKey := List String

/-- One page of a batched watcher: the items `cw.slurp()` returns and the
per-page exception map that comes with them. -/
structure BatchPage where
  items : List Nat
  exception_map : List ExcKey
deriving DecidableEq, Repr

/-- A watcher for one account/technology, with the behaviour of each call
the orchestration code makes on it.  For the batched path the successive
pages are given as a list: `done_slurping` is false exactly while pages
remain, so the spec's "the completion flag eventually becomes true"
assumption is the finiteness of `pages`. -/
structure RWatcher where
  index : String
  i_am_plural : String
  batched_size : Nat
  accounts : List String
  /-- result of the full-snapshot `cw.slurp()` (non-batch path) -/
  slurp_snapshot : Except PyErr (List Nat × List ExcKey)
  /-- result of `cw.save()` -/
  save_result : Except PyErr Unit
  /-- change detection `cw.find_changes(current, exception_map)`,
  returning the audit items for a page -/
  find_changes_fn : List Nat → List ExcKey → List Nat
  /-- keys of the exception map returned by `cw.slurp_list()` -/
  slurp_list_exceptions : List ExcKey
  /-- the successive pages returned by batched `cw.slurp()` calls -/
  pages : List BatchPage

/-- An auditor, with the result (normal return or raised exception) of
each call the audit loops make on it. -/
structure Auditor where
  index : String
  read_previous_items : Except PyErr (List Nat)
  audit_objects : Except PyErr Unit
  save_issues : Except PyErr Unit
  create_report : Except PyErr Unit
  email_report : Except PyErr Unit

/-- A monitor at runtime: `mon.batch_support`, `mon.watcher`,
`mon.auditors` (tasks.py uses exactly these three fields). -/
structure RMonitor where
  batch_support : Bool
  watcher : RWatcher
  auditors : List Auditor

/-! ## Audit loops (tasks.py lines 296-341)

`_audit_changes` and `_audit_specific_changes` share the same loop body:
for each auditor, set `au.items` (from `read_previous_items()` in the
former, from the caller-supplied `audit_items` in the latter), run
`audit_objects()`, `save_issues()`, optionally build and email a report,
and sync with Jira when `jirasync` is configured.  `readOf` abstracts the
only difference, the item-assignment step. -/

/-- The `if send_report:` part of the loop body: `report =
au.create_report()` then `au.email_report(report)`. -/
def reportStep (send_report : Bool) (au : Auditor) :
    List Event × Except PyErr Unit :=
  if send_report then
    match au.create_report with
    | .error e => ([], .error e)
    | .ok _ =>
      match au.email_report with
      | .error e => ([], .error e)
      | .ok _ => ([.emailReport au.index], .ok ())
  else ([], .ok ())

/-- The body of one iteration of the auditor loop, for auditor `au`.
Events are emitted for calls that complete; the first raising call makes
the body exit with that exception. -/
def auditorBody (jira : Bool) (send_report : Bool)
    (readStep : Except PyErr Unit) (au : Auditor) :
    List Event × Except PyErr Unit :=
  match readStep with
  | .error e => ([], .error e)
  | .ok _ =>
    match au.audit_objects with
    | .error e => ([], .error e)
    | .ok _ =>
      match au.save_issues with
      | .error e => ([.auditObjects au.index], .error e)
      | .ok _ =>
        match reportStep send_report au with
        | (evs, .error e) =>
          ([.auditObjects au.index, .saveIssues au.index] ++ evs, .error e)
        | (evs, .ok _) =>
          ([.auditObjects au.index, .saveIssues au.index] ++ evs ++
            (if jira then [.jiraSync au.index] else []), .ok ())

/-- The `for au in auditors:` loop shared by `_audit_changes` and
`_audit_specific_changes`: the first exception aborts the whole loop
(the `try` in the source wraps the loop, not its body). -/
def auditLoop (jira : Bool) (send_report : Bool)
    (readOf : Auditor → Except PyErr Unit) :
    List Auditor → List Event × Except PyErr Unit
  | [] => ([], .ok ())
  | au :: rest =>
    match auditorBody jira send_report (readOf au) au with
    | (evs, .error e) => (evs, .error e)
    | (evs, .ok _) =>
      match auditLoop jira send_report readOf rest with
      | (evs2, r2) => (evs ++ evs2, r2)

/-- The item-assignment step of `_audit_changes`:
`au.items = au.read_previous_items()` (may raise). -/
def readPrev (au : Auditor) : Except PyErr Unit :=
  match au.read_previous_items with
  | .ok _ => .ok ()
  | .error e => .error e

/-- tasks.py lines 296-313, `_audit_changes(account, auditors,
send_report, debug)`: run the auditor loop on previously persisted items;
a transient storage fault is caught, the session removed, an
ExceptionRecord with source `"scheduler-audit-changes"` stored, and the
fault swallowed.  Any other exception propagates. -/
def _audit_changes (jira : Bool) (auditors : List Auditor)
    (send_report : Bool) : List Event × Except PyErr Unit :=
  match auditLoop jira send_report readPrev auditors with
  | (evs, .ok _) => (evs, .ok ())
  | (evs, .error e) =>
    if e.isDbError then
      (evs ++ [.sessionRemove, .storeException "scheduler-audit-changes"], .ok ())
    else (evs, .error e)

/-- tasks.py lines 316-341, `_audit_specific_changes(monitor,
audit_items, send_report, debug)`: the same loop and catch, but
`au.items = audit_items` (an assignment that cannot raise). -/
def _audit_specific_changes (jira : Bool) (monitor : RMonitor)
    (audit_items : List Nat) (send_report : Bool) :
    List Event × Except PyErr Unit :=
  match auditLoop jira send_report (fun _ => .ok ()) monitor.auditors with
  | (evs, .ok _) => (evs, .ok ())
  | (evs, .error e) =>
    if e.isDbError then
      (evs ++ [.sessionRemove, .storeException "scheduler-audit-changes"], .ok ())
    else (evs, .error e)

/-! ## `audit_changes` (tasks.py lines 231-249) -/

/-- tasks.py lines 243-249, `for monitor in monitors:` inside
`audit_changes`: skip `monitor.batch_support and skip_batch` monitors,
run `_audit_changes` on the rest.  `_audit_changes` only lets non-storage
exceptions escape; those abort the remaining iterations. -/
def auditMonitorsLoop (jira : Bool) (send_report : Bool)
    (skip_batch : Bool) : List RMonitor → List Event × Except PyErr Unit
  | [] => ([], .ok ())
  | monitor :: rest =>
    if monitor.batch_support && skip_batch then
      auditMonitorsLoop jira send_report skip_batch rest
    else
      match _audit_changes jira monitor.auditors send_report with
      | (evs, .error e) => (evs, .error e)
      | (evs, .ok _) =>
        match auditMonitorsLoop jira send_report skip_batch rest with
        | (evs2, r2) => (evs ++ evs2, r2)

/-- tasks.py lines 241-242, `for account in accounts:` of
`audit_changes`; `deps` stands for the external
`get_monitors_and_dependencies(account, monitor_names, debug)`. -/
def auditAccountsLoop (jira : Bool) (send_report : Bool)
    (skip_batch : Bool) (deps : String → List String → List RMonitor)
    (monitor_names : List String) :
    List String → List Event × Except PyErr Unit
  | [] => ([], .ok ())
  | account :: rest =>
    match auditMonitorsLoop jira send_report skip_batch
        (deps account monitor_names) with
    | (evs, .error e) => (evs, .error e)
    | (evs, .ok _) =>
      match auditAccountsLoop jira send_report skip_batch deps
          monitor_names rest with
      | (evs2, r2) => (evs ++ evs2, r2)

/-- tasks.py lines 231-249, `audit_changes(accounts, monitor_names,
send_report, debug=True, skip_batch=True)`. -/
def audit_changes (jira : Bool)
    (deps : String → List String → List RMonitor)
    (accounts : List String) (monitor_names : List String)
    (send_report : Bool) (skip_batch : Bool) :
    List Event × Except PyErr Unit :=
  auditAccountsLoop jira send_report skip_batch deps monitor_names accounts

/-! ## `batch_logic` (tasks.py lines 252-293) -/

/-- tasks.py lines 280-287, `while not current_watcher.done_slurping:`:
fetch one page, run change detection on it, and audit exactly that
page's items via `_audit_specific_changes(monitor, audit_items, False,
debug)`.  An exception escaping the page audit aborts the loop. -/
def batchPagesLoop (jira : Bool) (mon : RMonitor) (cw : RWatcher) :
    List BatchPage → List Event × Except PyErr Unit
  | [] => ([], .ok ())
  | p :: rest =>
    let audit_items := cw.find_changes_fn p.items p.exception_map
    match _audit_specific_changes jira mon audit_items false with
    | (evs, .error e) =>
      (.slurpPage p.items :: .pageChanges audit_items :: evs, .error e)
    | (evs, .ok _) =>
      match batchPagesLoop jira mon cw rest with
      | (evs2, r2) =>
        (.slurpPage p.items :: .pageChanges audit_items :: evs ++ evs2, r2)

/-- tasks.py lines 252-293, `batch_logic(monitor, current_watcher,
account_name, debug)`: first `slurp_list()`; if its exception map is
non-empty, log the failure (with the first key's third component as the
region, or `"unknown"` when the key tuple is too short) and return
without doing anything else.  Otherwise page to exhaustion and finally
call `find_deleted_batch(account_name)`. -/
def batch_logic (jira : Bool) (mon : RMonitor) (cw : RWatcher)
    (account_name : String) : List Event × Except PyErr Unit :=
  if cw.slurp_list_exceptions.length > 0 then
    let location := cw.slurp_list_exceptions.headD []
    let region :=
      if location.length > 2 then location.getD 2 "unknown" else "unknown"
    ([.logTotalFetchFailure region], .ok ())
  else
    match batchPagesLoop jira mon cw cw.pages with
    | (evs, .error e) => (evs, .error e)
    | (evs, .ok _) => (evs ++ [.findDeletedBatch account_name], .ok ())

/-! ## `find_changes` (tasks.py lines 207-228) -/

/-- tasks.py lines 213-222, `for mon in monitors:` of `find_changes`:
batch monitors go through `batch_logic`; the rest do one full-snapshot
`slurp()`, `find_changes(...)`, `save()`. -/
def monitorsLoop (jira : Bool) (account_name : String) :
    List RMonitor → List Event × Except PyErr Unit
  | [] => ([], .ok ())
  | mon :: rest =>
    let step : List Event × Except PyErr Unit :=
      if mon.batch_support then
        batch_logic jira mon mon.watcher account_name
      else
        match mon.watcher.slurp_snapshot with
        | .error e => ([], .error e)
        | .ok _ =>
          match mon.watcher.save_result with
          | .error e => ([.slurpSnapshot, .snapshotChanges], .error e)
          | .ok _ =>
            ([.slurpSnapshot, .snapshotChanges, .watcherSave], .ok ())
    match step with
    | (evs, .error e) => (evs, .error e)
    | (evs, .ok _) =>
      match monitorsLoop jira account_name rest with
      | (evs2, r2) => (evs ++ evs2, r2)

/-- tasks.py lines 207-228, `find_changes(account_name, monitor_name,
debug=True)`: resolve the monitors (`gm` stands for the external
`get_monitors`), run the watch loop, then `audit_changes([account_name],
[monitor_name], False, debug)` — Python's defaulted `skip_batch=True` is
passed explicitly here — and finally `db.session.close()`.  There is no
`try` in this function: the close only happens on the normal path. -/
def find_changes (jira : Bool)
    (gm : String → List String → List RMonitor)
    (gmd : String → List String → List RMonitor)
    (account_name : String) (monitor_name : String) :
    List Event × Except PyErr Unit :=
  let monitors := gm account_name [monitor_name]
  match monitorsLoop jira account_name monitors with
  | (evs, .error e) => (evs, .error e)
  | (evs, .ok _) =>
    match audit_changes jira gmd [account_name] [monitor_name] false true with
    | (evs2, .error e) => (evs ++ evs2, .error e)
    | (evs2, .ok _) => (evs ++ evs2 ++ [.sessionClose], .ok ())

/-! ## `reporter_logic` and the Celery task wrappers
(tasks.py lines 91-157) -/

/-- tasks.py lines 142-157, `reporter_logic(account_name,
technology_name)`: `find_changes` then `Alerter(monitors,
account=account_name).report()` (behaviour of the external alerter given
by `alerter`), wrapped in a catch of the three transient storage faults
that removes the session, stores an ExceptionRecord with source
`"scheduler-task-account-tech"`, and re-raises. -/
def reporter_logic (jira : Bool)
    (gm : String → List String → List RMonitor)
    (gmd : String → List String → List RMonitor)
    (alerter : Except PyErr Unit)
    (account_name : String) (technology_name : String) :
    List Event × Except PyErr Unit :=
  let body : List Event × Except PyErr Unit :=
    match find_changes jira gm gmd account_name technology_name with
    | (evs, .error e) => (evs, .error e)
    | (evs, .ok _) =>
      match alerter with
      | .error e => (evs, .error e)
      | .ok _ => (evs ++ [.alertReport], .ok ())
  match body with
  | (evs, .ok _) => (evs, .ok ())
  | (evs, .error e) =>
    if e.isDbError then
      (evs ++ [.sessionRemove, .storeException "scheduler-task-account-tech"],
       .error e)
    else (evs, .error e)

/-- The Celery retry driver for a task declared with
`@CELERY.task(bind=True, max_retries=3)` whose except-clause stores an
ExceptionRecord (`failEvents`) and calls `self.retry(exc=e)`.
Modelled from the task-queue collaborator contract (spec §6) and Celery's
documented semantics: `Task.retry` itself raises — `Retry` while
`request.retries < max_retries` (so the worker re-executes the body with
`retries` incremented), and the original exception once
`retries` would exceed `max_retries`.  `fuel` is the number of retries
still allowed, `k` the index of the current attempt; `body k` is the
result of the `k`-th execution of the task body.  The result is the full
event trace and `some e` when the exception finally surfaces to Celery's
own failure handling. -/
def runTask (body : Nat → List Event × Except PyErr Unit)
    (failEvents : List Event) :
    Nat → Nat → List Event × Option PyErr
  | fuel, k =>
    match body k with
    | (evs, .ok _) => (.taskAttempt k :: evs, none)
    | (evs, .error e) =>
      match fuel with
      | 0 => (.taskAttempt k :: evs ++ failEvents, some e)
      | fuel' + 1 =>
        match runTask body failEvents fuel' (k + 1) with
        | (evs2, r2) => (.taskAttempt k :: evs ++ failEvents ++ evs2, r2)

/-- tasks.py lines 91-111, `task_account_tech(self, account_name,
technology_name)`: run the body (`reporter_logic` plus timing/logging);
on any exception store an ExceptionRecord with source
`"scheduler-exception-on-watch"` and `raise self.retry(exc=e)`, with
`max_retries=3`. -/
def task_account_tech (body : Nat → List Event × Except PyErr Unit) :
    List Event × Option PyErr :=
  runTask body [.storeException "scheduler-exception-on-watch"] 3 0

/-- The task `task_account_tech` with its real body,
`reporter_logic(account_name, technology_name)` (the body is the same
pure function at every attempt). -/
def task_account_tech_run (jira : Bool)
    (gm : String → List String → List RMonitor)
    (gmd : String → List String → List RMonitor)
    (alerter : Except PyErr Unit)
    (account_name : String) (technology_name : String) :
    List Event × Option PyErr :=
  task_account_tech
    (fun _ => reporter_logic jira gm gmd alerter account_name technology_name)

/-- tasks.py lines 114-132, `task_audit(self, account_name,
technology_name)`: body `audit_changes([account_name],
[technology_name], True)` (with Python's defaulted `skip_batch=True`);
on any exception store an ExceptionRecord with source
`"scheduler-exception-on-audit"` and `self.retry(exc=e)` (Celery's
`Task.retry` raises internally, so the missing `raise` keyword does not
change control flow), with `max_retries=3`. -/
def task_audit (body : Nat → List Event × Except PyErr Unit) :
    List Event × Option PyErr :=
  runTask body [.storeException "scheduler-exception-on-audit"] 3 0

/-- The task `task_audit` with its real body. -/
def task_audit_run (jira : Bool)
    (gmd : String → List String → List RMonitor)
    (account_name : String) (technology_name : String) :
    List Event × Option PyErr :=
  task_audit
    (fun _ => audit_changes jira gmd [account_name] [technology_name] true true)

/-! ## Counting helpers -/

/-- Is this event the start of a task-body execution attempt? -/
def Event.isAttempt : Event → Bool
  | .taskAttempt _ => true
  | _ => false

/-- How many execution attempts a trace contains. -/
def attemptCount (evs : List Event) : Nat :=
  evs.countP Event.isAttempt

/-- How many ExceptionRecords with source tag `s` a trace contains. -/
def recordCount (s : String) (evs : List Event) : Nat :=
  evs.countP (fun ev => ev == .storeException s)

instance : DecidableEq (Except PyErr Unit)
  | .ok (), .ok () => isTrue rfl
  | .ok (), .error _ => isFalse (by simp)
  | .error _, .ok () => isFalse (by simp)
  | .error e, .error f =>
    if h : e = f then isTrue (by rw [h]) else isFalse (by simp [h])

/-! ## Concrete sample data

Used to evaluate the verified functions at concrete inputs. -/

/-- An auditor all of whose calls succeed. -/
def okAuditor : Auditor :=
  { index := "iamrole", read_previous_items := .ok [], audit_objects := .ok (),
    save_issues := .ok (), create_report := .ok (), email_report := .ok () }

/-- A second all-succeeding auditor with a different technology name. -/
def okAuditorB : Auditor := { okAuditor with index := "policy" }

/-- An auditor whose `audit_objects()` raises a transient storage fault. -/
def dbFailAuditor : Auditor :=
  { okAuditor with
    index := "sgroup",
    audit_objects := .error .operationalError }

/-- An auditor whose `audit_objects()` raises a non-storage exception. -/
def appFailAuditor : Auditor :=
  { okAuditor with
    index := "s3",
    audit_objects := .error (.other "boom") }

/-- A watcher all of whose calls succeed, streaming two pages. -/
def sampleWatcher : RWatcher :=
  { index := "s3", i_am_plural := "S3 Buckets", batched_size := 50,
    accounts := ["prod"], slurp_snapshot := .ok ([1, 2], []),
    save_result := .ok (), find_changes_fn := fun items _ => items,
    slurp_list_exceptions := [], pages := [⟨[1, 2], []⟩, ⟨[3], []⟩] }

/-- A watcher whose first batched fetch fails for every scope. -/
def fetchFailWatcher : RWatcher :=
  { sampleWatcher with
    slurp_list_exceptions := [["s3", "prod", "us-east-1"]] }

/-- A watcher whose full-snapshot `slurp()` raises a storage fault. -/
def snapFailWatcher : RWatcher :=
  { sampleWatcher with slurp_snapshot := .error .operationalError }

/-- A batch-supporting monitor with an all-succeeding watcher/auditor. -/
def batchMon : RMonitor :=
  { batch_support := true, watcher := sampleWatcher, auditors := [okAuditor] }

/-- A batch-supporting monitor whose first fetch fails totally. -/
def batchFailMon : RMonitor :=
  { batch_support := true, watcher := fetchFailWatcher,
    auditors := [okAuditor] }

/-- A non-batch monitor with an all-succeeding watcher/auditor. -/
def nonBatchMon : RMonitor :=
  { batch_support := false, watcher := sampleWatcher,
    auditors := [okAuditor] }

/-- A non-batch monitor whose snapshot fetch raises a storage fault. -/
def snapFailMon : RMonitor :=
  { batch_support := false, watcher := snapFailWatcher,
    auditors := [okAuditor] }

/-- A non-batch monitor whose auditor raises a non-storage exception. -/
def appFailMon : RMonitor :=
  { batch_support := false, watcher := sampleWatcher,
    auditors := [appFailAuditor] }

/-- A non-batch monitor whose first auditor raises a storage fault. -/
def dbFailMon : RMonitor :=
  { batch_support := false, watcher := sampleWatcher,
    auditors := [dbFailAuditor, okAuditor] }

/-- A failing-then-recovering Celery task body: the first two attempts
raise a storage fault, the third succeeds. -/
def flakyBody (k : Nat) : List Event × Except PyErr Unit :=
  if k < 2 then ([], .error .operationalError) else ([], .ok ())

/-- A Celery task body that fails on every attempt. -/
def alwaysFailBody (_ : Nat) : List Event × Except PyErr Unit :=
  ([], .error (.other "boom"))

/-- The sample account of the spec's test scenario (§8). -/
def prodAccount : Account :=
  { name := "prod", active := true, third_party := false }

/-- The spec's sample non-batch monitor: `iamrole`, 15-minute interval. -/
def iamMonitor : Monitor :=
  { watcher := some ⟨"iamrole", 15⟩, batch_support := false }

/-- The spec's sample batch monitor: `s3`. -/
def s3Monitor : Monitor :=
  { watcher := some ⟨"s3", 60⟩, batch_support := true }

/-- The sample monitor table: both monitors for every account. -/
def sampleMonitors : String → List Monitor :=
  fun _ => [iamMonitor, s3Monitor]

/-! # Theorems -/

/-! ## Event-shape lemmas for the audit loops -/

/-- Every event emitted by `reportStep` belongs to the auditor it ran. -/
theorem reportStep_events (send_report : Bool) (au : Auditor) :
    ∀ ev ∈ (reportStep send_report au).1,
      ev.auIndex = some au.index := by
  intro ev hev
  unfold reportStep at hev
  split at hev
  · split at hev
    · simp at hev
    · split at hev
      · simp at hev
      · simp at hev
        subst hev; rfl
  · simp at hev

/-- Every event emitted by `auditorBody` belongs to the auditor it ran. -/
theorem auditorBody_events (jira send_report : Bool)
    (readStep : Except PyErr Unit) (au : Auditor) :
    ∀ ev ∈ (auditorBody jira send_report readStep au).1,
      ev.auIndex = some au.index := by
  intro ev hev
  unfold auditorBody at hev
  split at hev
  · simp at hev
  · split at hev
    · simp at hev
    · split at hev
      · simp at hev
        subst hev; rfl
      · split at hev
        · rename_i evs e heq
          simp at hev
          rcases hev with hev | hev | hev
          · subst hev; rfl
          · subst hev; rfl
          · exact reportStep_events send_report au ev (by rw [heq]; exact hev)
        · rename_i evs u heq
          rcases hj : jira with _ | _ <;> rw [hj] at hev <;> simp at hev
          · rcases hev with hev | hev | hev
            · subst hev; rfl
            · subst hev; rfl
            · exact reportStep_events send_report au ev (by rw [heq]; exact hev)
          · rcases hev with hev | hev | hev | hev
            · subst hev; rfl
            · subst hev; rfl
            · exact reportStep_events send_report au ev (by rw [heq]; exact hev)
            · subst hev; rfl

/-- Every event emitted by the auditor loop belongs to one of its
auditors. -/
theorem auditLoop_events (jira send_report : Bool)
    (readOf : Auditor → Except PyErr Unit) (auditors : List Auditor) :
    ∀ ev ∈ (auditLoop jira send_report readOf auditors).1,
      ∃ au ∈ auditors, ev.auIndex = some au.index := by
  induction auditors with
  | nil => intro ev hev; simp [auditLoop] at hev
  | cons au rest ih =>
    intro ev hev
    unfold auditLoop at hev
    rcases hb : auditorBody jira send_report (readOf au) au with ⟨evs, r⟩
    rw [hb] at hev
    rcases r with e | _
    · exact ⟨au, by simp, auditorBody_events jira send_report (readOf au) au ev (by rw [hb]; exact hev)⟩
    · rcases hl : auditLoop jira send_report readOf rest with ⟨evs2, r2⟩
      rw [hl] at hev
      simp at hev
      rcases hev with hev | hev
      · exact ⟨au, by simp,
          auditorBody_events jira send_report (readOf au) au ev (by rw [hb]; exact hev)⟩
      · obtain ⟨au', hau', hidx⟩ := ih ev (by rw [hl]; exact hev)
        exact ⟨au', by simp [hau'], hidx⟩

/-- Every event emitted by `_audit_specific_changes` is an auditor-loop
event, a session reset, or the `"scheduler-audit-changes"` record. -/
theorem _audit_specific_changes_events (jira : Bool) (monitor : RMonitor)
    (audit_items : List Nat) (send_report : Bool) :
    ∀ ev ∈ (_audit_specific_changes jira monitor audit_items send_report).1,
      ev.auIndex.isSome = true ∨ ev = .sessionRemove ∨
        ev = .storeException "scheduler-audit-changes" := by
  intro ev hev
  unfold _audit_specific_changes at hev
  split at hev
  · rename_i evs u hl
    simp at hev
    obtain ⟨au, _, hidx⟩ :=
      auditLoop_events jira send_report (fun _ => Except.ok ())
        monitor.auditors ev (by rw [hl]; exact hev)
    left; simp [hidx]
  · rename_i evs e hl
    split at hev
    · simp at hev
      rcases hev with hev | hev | hev
      · obtain ⟨au, _, hidx⟩ :=
          auditLoop_events jira send_report (fun _ => Except.ok ())
            monitor.auditors ev (by rw [hl]; exact hev)
        left; simp [hidx]
      · right; left; exact hev
      · right; right; exact hev
    · simp at hev
      obtain ⟨au, _, hidx⟩ :=
        auditLoop_events jira send_report (fun _ => Except.ok ())
          monitor.auditors ev (by rw [hl]; exact hev)
      left; simp [hidx]

/-! ## C3: total fetch failure aborts the batch cycle -/

/-- C3: if the Batch Consumer's first fetch (`slurp_list`) returns a
non-empty exception map, `batch_logic` returns normally having done
nothing but log: the whole trace is one log event — no page is fetched,
no change detection runs, no audit runs, no deletion reconciliation
runs, and no ExceptionRecord is stored. -/
theorem batch_logic_total_fetch_failure_aborts (jira : Bool)
    (mon : RMonitor) (cw : RWatcher) (account_name : String)
    (h : 0 < cw.slurp_list_exceptions.length) :
    ∃ region, batch_logic jira mon cw account_name
      = ([Event.logTotalFetchFailure region], Except.ok ()) := by
  refine ⟨if (cw.slurp_list_exceptions.headD []).length > 2
      then (cw.slurp_list_exceptions.headD []).getD 2 "unknown"
      else "unknown", ?_⟩
  unfold batch_logic
  rw [if_pos h]

/-- Witness for C3 at a concrete watcher whose only fetch scope failed. -/
theorem batch_logic_total_fetch_failure_aborts_witness :
    0 < fetchFailWatcher.slurp_list_exceptions.length ∧
    ∃ region, batch_logic true batchFailMon fetchFailWatcher "prod"
      = ([Event.logTotalFetchFailure region], Except.ok ()) :=
  ⟨by decide,
   batch_logic_total_fetch_failure_aborts true batchFailMon fetchFailWatcher
     "prod" (by decide)⟩

/-! ## C4: the batch loop terminates and reconciles deletions once -/

/-- The page-audit helper never calls deletion reconciliation. -/
theorem _audit_specific_changes_no_delete (jira : Bool) (monitor : RMonitor)
    (audit_items : List Nat) (send_report : Bool) (a : String) :
    Event.findDeletedBatch a
      ∉ (_audit_specific_changes jira monitor audit_items send_report).1 := by
  intro h
  rcases _audit_specific_changes_events jira monitor audit_items send_report
    _ h with h' | h' | h'
  · simp [Event.auIndex] at h'
  · simp at h'
  · simp at h'

/-- If every page audit returns normally, the paging loop returns
normally and never calls deletion reconciliation itself. -/
theorem batchPagesLoop_ok (jira : Bool) (mon : RMonitor) (cw : RWatcher)
    (pages : List BatchPage)
    (h : ∀ p ∈ pages,
      (_audit_specific_changes jira mon
        (cw.find_changes_fn p.items p.exception_map) false).2 = Except.ok ()) :
    (batchPagesLoop jira mon cw pages).2 = Except.ok () ∧
    ∀ a, Event.findDeletedBatch a ∉ (batchPagesLoop jira mon cw pages).1 := by
  induction pages with
  | nil =>
    refine ⟨rfl, ?_⟩
    intro a ha
    simp [batchPagesLoop] at ha
  | cons p rest ih =>
    have hp := h p (by simp)
    obtain ⟨hok2, hnd2⟩ := ih (fun q hq => h q (by simp [hq]))
    unfold batchPagesLoop
    rcases ha : _audit_specific_changes jira mon
        (cw.find_changes_fn p.items p.exception_map) false with ⟨evs, r⟩
    rw [ha] at hp
    simp at hp
    subst hp
    rcases hb : batchPagesLoop jira mon cw rest with ⟨evs2, r2⟩
    rw [hb] at hok2 hnd2
    simp at hok2
    subst hok2
    simp only [ha]
    refine ⟨trivial, ?_⟩
    intro a ha'
    simp at ha'
    rcases ha' with h1 | h1
    · have hno := _audit_specific_changes_no_delete jira mon
        (cw.find_changes_fn p.items p.exception_map) false a
      rw [ha] at hno
      exact hno h1
    · exact hnd2 a h1

/-- C4: when the first batch fetch succeeds (empty exception map) and
every page audit returns normally, `batch_logic` terminates normally and
calls `find_deleted_batch` exactly once, as the last action, strictly
after every page's audit.  (The spec's assumption that the watcher's
completion flag eventually becomes true is the finiteness of
`cw.pages`.) -/
theorem batch_logic_reconcile_once (jira : Bool) (mon : RMonitor)
    (cw : RWatcher) (account_name : String)
    (hfetch : cw.slurp_list_exceptions = [])
    (haudit : ∀ p ∈ cw.pages,
      (_audit_specific_changes jira mon
        (cw.find_changes_fn p.items p.exception_map) false).2 = Except.ok ()) :
    ∃ evs, batch_logic jira mon cw account_name
        = (evs ++ [Event.findDeletedBatch account_name], Except.ok ()) ∧
      Event.findDeletedBatch account_name ∉ evs := by
  obtain ⟨hok, hnd⟩ := batchPagesLoop_ok jira mon cw cw.pages haudit
  refine ⟨(batchPagesLoop jira mon cw cw.pages).1, ?_, hnd _⟩
  unfold batch_logic
  rw [if_neg (by simp [hfetch])]
  rcases hb : batchPagesLoop jira mon cw cw.pages with ⟨evs, r⟩
  rw [hb] at hok
  simp at hok
  subst hok
  simp

/-- Witness for C4 at a concrete two-page watcher: the loop audits both
pages and reconciles deletions exactly once, at the end. -/
theorem batch_logic_reconcile_once_witness :
    ∃ evs, batch_logic false batchMon sampleWatcher "prod"
        = (evs ++ [Event.findDeletedBatch "prod"], Except.ok ()) ∧
      Event.findDeletedBatch "prod" ∉ evs :=
  batch_logic_reconcile_once false batchMon sampleWatcher "prod" rfl
    (by
      intro p hp
      simp [sampleWatcher] at hp
      rcases hp with rfl | rfl <;> rfl)

/-! ## C5: session release in `find_changes`

The claim says the data session is released on *every* exit path of the
Change Finder.  `find_changes` (tasks.py lines 207-228) has no
`try`/`finally`: `db.session.close()` is its last statement, so it runs
only on the normal-return path.  When any watcher call raises, the
function exits with the exception and performs no session release itself
(its callers, or the ambient task context, must clean up). -/

/-- Counterexample to C5: a concrete `find_changes` run in which the
snapshot fetch raises a transient storage fault.  The invocation exits
with the exception and its trace contains neither a `db.session.close()`
nor a `db.session.remove()` call. -/
theorem find_changes_exception_no_session_release :
    (find_changes false (fun _ _ => [snapFailMon]) (fun _ _ => [])
        "prod" "iamrole").2 = Except.error PyErr.operationalError ∧
    Event.sessionClose ∉ (find_changes false (fun _ _ => [snapFailMon])
        (fun _ _ => []) "prod" "iamrole").1 ∧
    Event.sessionRemove ∉ (find_changes false (fun _ _ => [snapFailMon])
        (fun _ _ => []) "prod" "iamrole").1 := by
  refine ⟨rfl, ?_, ?_⟩ <;> decide

/-- C5 as amended: on every invocation of `find_changes` that returns
normally, the data session is closed, as the very last action; an
invocation that exits with an exception performs no session release of
its own. -/
theorem find_changes_normal_return_closes_session (jira : Bool)
    (gm gmd : String → List String → List RMonitor)
    (account_name monitor_name : String)
    (h : (find_changes jira gm gmd account_name monitor_name).2
      = Except.ok ()) :
    ∃ evs, (find_changes jira gm gmd account_name monitor_name).1
      = evs ++ [Event.sessionClose] := by
  unfold find_changes at h ⊢
  rcases hm : monitorsLoop jira account_name (gm account_name [monitor_name])
    with ⟨evs, r⟩
  rcases r with e | _
  · simp only [hm] at h
    simp at h
  · rcases ha : audit_changes jira gmd [account_name] [monitor_name]
        false true with ⟨evs2, r2⟩
    rcases r2 with e | _
    · simp only [hm, ha] at h
      simp at h
    · simp only [hm, ha]
      exact ⟨evs ++ evs2, by simp⟩

/-- Witness for the amended C5 at a concrete successful run. -/
theorem find_changes_normal_return_closes_session_witness :
    (find_changes false (fun _ _ => [nonBatchMon]) (fun _ _ => [nonBatchMon])
        "prod" "iamrole").2 = Except.ok () ∧
    ∃ evs, (find_changes false (fun _ _ => [nonBatchMon])
        (fun _ _ => [nonBatchMon]) "prod" "iamrole").1
      = evs ++ [Event.sessionClose] :=
  ⟨rfl, find_changes_normal_return_closes_session false
    (fun _ _ => [nonBatchMon]) (fun _ _ => [nonBatchMon])
    "prod" "iamrole" rfl⟩

/-! ## C6: the skip-batch policy -/

/-- If every monitor of a sweep is batch-supporting and `skip_batch` is
set, the sweep does nothing. -/
theorem auditMonitorsLoop_all_batch (jira send_report : Bool)
    (ms : List RMonitor) (hall : ∀ m ∈ ms, m.batch_support = true) :
    auditMonitorsLoop jira send_report true ms = ([], Except.ok ()) := by
  induction ms with
  | nil => rfl
  | cons m rest ih =>
    unfold auditMonitorsLoop
    rw [hall m (by simp)]
    simp only [Bool.true_and, if_true]
    exact ih (fun q hq => hall q (by simp [hq]))

/-- C6: in the Audit Orchestrator's account/technology-set mode a
batch-supporting monitor is skipped whenever `skip_batch` is set (first
conjunct); and the Change Finder invokes that mode with `skip_batch`
set, so when every monitor the sweep resolves is batch-supporting (and
its own watch loop has no monitors to run), `find_changes` performs no
audit at all — a batch technology is never audited by the sweep in the
cycle that already audited it page by page (second conjunct). -/
theorem audit_sweep_honors_skip_batch :
    (∀ (jira send_report : Bool) (m : RMonitor) (rest : List RMonitor),
      m.batch_support = true →
      auditMonitorsLoop jira send_report true (m :: rest)
        = auditMonitorsLoop jira send_report true rest) ∧
    (∀ (jira : Bool) (gm gmd : String → List String → List RMonitor)
      (account tech : String),
      gm account [tech] = [] →
      (∀ m ∈ gmd account [tech], m.batch_support = true) →
      find_changes jira gm gmd account tech
        = ([Event.sessionClose], Except.ok ())) := by
  constructor
  · intro jira sr m rest hm
    conv_lhs => unfold auditMonitorsLoop
    rw [hm]
    simp
  · intro jira gm gmd account tech hgm hall
    have h2 := auditMonitorsLoop_all_batch jira false (gmd account [tech]) hall
    unfold find_changes
    simp only [hgm]
    unfold audit_changes auditAccountsLoop
    simp only [h2, monitorsLoop, auditAccountsLoop]
    simp

/-- Witness for C6: a concrete batch monitor is skipped by the sweep,
and a concrete `find_changes` cycle whose dependency resolution yields
only batch monitors performs no audit. -/
theorem audit_sweep_honors_skip_batch_witness :
    auditMonitorsLoop false false true [batchMon]
      = auditMonitorsLoop false false true [] ∧
    find_changes false (fun _ _ => []) (fun _ _ => [batchMon])
        "prod" "s3" = ([Event.sessionClose], Except.ok ()) :=
  ⟨audit_sweep_honors_skip_batch.1 false false batchMon [] rfl,
   audit_sweep_honors_skip_batch.2 false (fun _ _ => [])
     (fun _ _ => [batchMon]) "prod" "s3" rfl
     (by intro m hm; simp at hm; subst hm; rfl)⟩

/-! ## C7: a db fault during one monitor's audit is recorded once,
swallowed, and does not stop the sweep -/

/-- The auditor loop itself never stores an ExceptionRecord. -/
theorem auditLoop_no_record (jira send_report : Bool)
    (readOf : Auditor → Except PyErr Unit) (auditors : List Auditor)
    (s : String) :
    recordCount s (auditLoop jira send_report readOf auditors).1 = 0 := by
  unfold recordCount
  rw [List.countP_eq_zero]
  intro ev hev
  obtain ⟨au, _, hidx⟩ :=
    auditLoop_events jira send_report readOf auditors ev hev
  simp only [beq_iff_eq]
  intro h
  subst h
  simp [Event.auIndex] at hidx

/-- C7: when auditing one monitor raises a transient storage fault,
`_audit_changes` stores exactly one ExceptionRecord with source
`"scheduler-audit-changes"`, resets the session, returns normally (the
fault is not re-raised), and the enclosing sweep goes on to process the
remaining monitors. -/
theorem audit_changes_db_fault_isolated (jira send_report skip_batch : Bool)
    (m : RMonitor) (rest : List RMonitor) (evs : List Event) (e : PyErr)
    (hskip : (m.batch_support && skip_batch) = false)
    (hfault : auditLoop jira send_report readPrev m.auditors
      = (evs, Except.error e))
    (hdb : e.isDbError = true) :
    _audit_changes jira m.auditors send_report
      = (evs ++ [Event.sessionRemove,
          Event.storeException "scheduler-audit-changes"], Except.ok ()) ∧
    recordCount "scheduler-audit-changes"
      (_audit_changes jira m.auditors send_report).1 = 1 ∧
    auditMonitorsLoop jira send_report skip_batch (m :: rest)
      = ((_audit_changes jira m.auditors send_report).1
          ++ (auditMonitorsLoop jira send_report skip_batch rest).1,
         (auditMonitorsLoop jira send_report skip_batch rest).2) := by
  have h1 : _audit_changes jira m.auditors send_report
      = (evs ++ [Event.sessionRemove,
          Event.storeException "scheduler-audit-changes"], Except.ok ()) := by
    unfold _audit_changes
    simp only [hfault, hdb, if_true]
  refine ⟨h1, ?_, ?_⟩
  · rw [h1]
    unfold recordCount
    rw [List.countP_append]
    have h0 : List.countP
        (fun ev => ev == Event.storeException "scheduler-audit-changes")
        evs = 0 := by
      have h' := auditLoop_no_record jira send_report readPrev m.auditors
        "scheduler-audit-changes"
      unfold recordCount at h'
      rw [hfault] at h'
      exact h'
    rw [h0]
    decide
  · conv_lhs => unfold auditMonitorsLoop
    rw [hskip, h1]
    rcases hrest : auditMonitorsLoop jira send_report skip_batch rest
      with ⟨evs2, r2⟩
    simp

/-- Witness for C7: a db fault in the first auditor of a concrete
monitor is recorded once and the next monitor still runs. -/
theorem audit_changes_db_fault_isolated_witness :
    _audit_changes false dbFailMon.auditors false
      = ([] ++ [Event.sessionRemove,
          Event.storeException "scheduler-audit-changes"], Except.ok ()) ∧
    recordCount "scheduler-audit-changes"
      (_audit_changes false dbFailMon.auditors false).1 = 1 ∧
    auditMonitorsLoop false false true (dbFailMon :: [nonBatchMon])
      = ((_audit_changes false dbFailMon.auditors false).1
          ++ (auditMonitorsLoop false false true [nonBatchMon]).1,
         (auditMonitorsLoop false false true [nonBatchMon]).2) :=
  audit_changes_db_fault_isolated false false true dbFailMon [nonBatchMon]
    [] PyErr.operationalError rfl rfl rfl

/-! ## C9: a fault in one auditor skips the monitor's remaining
auditors -/

/-- The auditor loop is compositional over a successful prefix. -/
theorem auditLoop_append_ok (jira send_report : Bool)
    (readOf : Auditor → Except PyErr Unit) (pre l : List Auditor)
    (evsP : List Event)
    (h : auditLoop jira send_report readOf pre = (evsP, Except.ok ())) :
    auditLoop jira send_report readOf (pre ++ l)
      = (evsP ++ (auditLoop jira send_report readOf l).1,
         (auditLoop jira send_report readOf l).2) := by
  induction pre generalizing evsP with
  | nil =>
    simp only [auditLoop] at h
    have hP : evsP = [] := by
      have := congrArg Prod.fst h
      simpa using this.symm
    subst hP
    simp only [List.nil_append]
  | cons au rest ih =>
    unfold auditLoop at h
    conv_lhs => rw [List.cons_append]; unfold auditLoop
    rcases hb : auditorBody jira send_report (readOf au) au with ⟨evs, r⟩
    rw [hb] at h
    rcases r with e | _
    · simp at h
    · rcases hl : auditLoop jira send_report readOf rest with ⟨evs2, r2⟩
      rw [hl] at h
      rcases r2 with e | _
      · simp at h
      · have hP : evsP = evs ++ evs2 := by
          have := congrArg Prod.fst h
          simpa using this.symm
        subst hP
        rw [ih evs2 hl]
        rcases auditLoop jira send_report readOf l with ⟨evs3, r3⟩
        simp

/-- C9: in both audit modes the `try` wraps the whole auditor loop, so
an exception from one auditor ends the loop: with a successful prefix
`pre`, a faulting auditor `auF`, and remaining auditors `post`, the loop
stops at `auF` (first conjunct), every event of the faulting iteration
belongs to `auF` (second conjunct), no audit/persist/report event of any
later auditor exists (third conjunct), and both `_audit_changes` and
`_audit_specific_changes` — when the fault is a transient storage fault
— swallow it having run nothing after `auF` (last two conjuncts). -/
theorem auditor_fault_skips_remaining (jira send_report : Bool)
    (readOf : Auditor → Except PyErr Unit)
    (pre : List Auditor) (auF : Auditor) (post : List Auditor)
    (evsP evsF : List Event) (e : PyErr)
    (hpre : auditLoop jira send_report readOf pre = (evsP, Except.ok ()))
    (hF : auditorBody jira send_report (readOf auF) auF
      = (evsF, Except.error e)) :
    auditLoop jira send_report readOf (pre ++ auF :: post)
      = (evsP ++ evsF, Except.error e) ∧
    (∀ ev ∈ evsF, ev.auIndex = some auF.index) ∧
    (∀ au' ∈ post, au'.index ∉ pre.map Auditor.index →
      au'.index ≠ auF.index →
      Event.auditObjects au'.index ∉ evsP ++ evsF ∧
      Event.saveIssues au'.index ∉ evsP ++ evsF ∧
      Event.emailReport au'.index ∉ evsP ++ evsF) ∧
    (readOf = readPrev → e.isDbError = true →
      _audit_changes jira (pre ++ auF :: post) send_report
        = ((evsP ++ evsF) ++ [Event.sessionRemove,
            Event.storeException "scheduler-audit-changes"],
           Except.ok ())) ∧
    (∀ monitor : RMonitor, monitor.auditors = pre ++ auF :: post →
      readOf = (fun _ => Except.ok ()) → e.isDbError = true →
      ∀ items, _audit_specific_changes jira monitor items send_report
        = ((evsP ++ evsF) ++ [Event.sessionRemove,
            Event.storeException "scheduler-audit-changes"],
           Except.ok ())) := by
  have hcons : auditLoop jira send_report readOf (auF :: post)
      = (evsF, Except.error e) := by
    unfold auditLoop
    rw [hF]
  have hmain : auditLoop jira send_report readOf (pre ++ auF :: post)
      = (evsP ++ evsF, Except.error e) := by
    rw [auditLoop_append_ok jira send_report readOf pre (auF :: post)
      evsP hpre, hcons]
  have hFev : ∀ ev ∈ evsF, ev.auIndex = some auF.index := by
    intro ev hev
    exact auditorBody_events jira send_report (readOf auF) auF ev
      (by rw [hF]; exact hev)
  refine ⟨hmain, hFev, ?_, ?_, ?_⟩
  · intro au' _ hnopre hneF
    have key : ∀ ev, ev.auIndex = some au'.index → ev ∉ evsP ++ evsF := by
      intro ev hev hmem
      rcases List.mem_append.mp hmem with hm | hm
      · obtain ⟨au, hau, hidx⟩ := auditLoop_events jira send_report readOf
          pre ev (by rw [hpre]; exact hm)
        rw [hev] at hidx
        apply hnopre
        rw [List.mem_map]
        exact ⟨au, hau, by injection hidx with h; exact h.symm⟩
      · have := hFev ev hm
        rw [hev] at this
        injection this with h
        exact hneF h
    refine ⟨key _ rfl, key _ rfl, key _ rfl⟩
  · intro hro hdb
    subst hro
    unfold _audit_changes
    rw [hmain]
    simp [hdb]
  · intro monitor hmons hro hdb items
    subst hro
    unfold _audit_specific_changes
    rw [hmons, hmain]
    simp [hdb]

/-- Witness for C9: one successful auditor, then a db-faulting auditor;
the third auditor is never run, and `_audit_changes` swallows the fault
after recording it. -/
theorem auditor_fault_skips_remaining_witness :
    auditLoop false false readPrev ([okAuditor] ++ dbFailAuditor :: [okAuditorB])
      = ([Event.auditObjects "iamrole", Event.saveIssues "iamrole"] ++ [],
         Except.error PyErr.operationalError) ∧
    _audit_changes false ([okAuditor] ++ dbFailAuditor :: [okAuditorB]) false
      = (([Event.auditObjects "iamrole", Event.saveIssues "iamrole"] ++ [])
          ++ [Event.sessionRemove,
              Event.storeException "scheduler-audit-changes"],
         Except.ok ()) ∧
    Event.auditObjects "policy" ∉
      ([Event.auditObjects "iamrole", Event.saveIssues "iamrole"]
        ++ ([] : List Event)) := by
  have h := auditor_fault_skips_remaining false false readPrev
    [okAuditor] dbFailAuditor [okAuditorB]
    [Event.auditObjects "iamrole", Event.saveIssues "iamrole"] []
    PyErr.operationalError rfl rfl
  exact ⟨h.1, h.2.2.2.1 rfl rfl,
    (h.2.2.1 okAuditorB (by simp) (by decide) (by decide)).1⟩

/-! ## C2 and C8: the Celery retry bound

Both task executors are declared `@CELERY.task(bind=True, max_retries=3)`.
Under Celery's retry contract `max_retries` bounds the number of
*retries*, so a task body can execute up to `3 + 1 = 4` times in total.
The claims say the total attempt count (including the first) never
exceeds 3; the counterexamples below show a fourth attempt. -/

/-- The trace of `runTask` contains at most `fuel + 1` attempts. -/
theorem runTask_attempt_bound (body : Nat → List Event × Except PyErr Unit)
    (failEvents : List Event)
    (hbody : ∀ k, attemptCount (body k).1 = 0)
    (hfail : attemptCount failEvents = 0) :
    ∀ fuel k, attemptCount (runTask body failEvents fuel k).1 ≤ fuel + 1 := by
  have hfail' : List.countP Event.isAttempt failEvents = 0 := hfail
  intro fuel
  induction fuel with
  | zero =>
    intro k
    unfold runTask
    rcases hb : body k with ⟨evs, r⟩
    simp only [hb]
    have hb1 : List.countP Event.isAttempt evs = 0 := by
      have := hbody k
      rw [hb] at this
      exact this
    rcases r with e | _ <;>
      simp [attemptCount, List.countP_cons, List.countP_append, hb1, hfail',
        Event.isAttempt]
  | succ fuel ih =>
    intro k
    unfold runTask
    rcases hb : body k with ⟨evs, r⟩
    simp only [hb]
    have hb1 : List.countP Event.isAttempt evs = 0 := by
      have := hbody k
      rw [hb] at this
      exact this
    rcases r with e | _
    · rcases hr : runTask body failEvents fuel (k + 1) with ⟨evs2, r2⟩
      simp only [hr]
      have h2 : List.countP Event.isAttempt evs2 ≤ fuel + 1 := by
        have := ih (k + 1)
        rw [hr] at this
        exact this
      simp [attemptCount, List.countP_cons, List.countP_append, hb1, hfail',
        Event.isAttempt]
      omega
    · simp [attemptCount, List.countP_cons, hb1, Event.isAttempt]

/-- In a `runTask` trace every failed attempt is followed by exactly one
recorded ExceptionRecord (`failEvents` holds one such record): when the
task finally succeeds the records number one less than the attempts;
when the exception surfaces they number exactly the attempts. -/
theorem runTask_records (body : Nat → List Event × Except PyErr Unit)
    (failEvents : List Event) (s : String)
    (hbody_att : ∀ k, attemptCount (body k).1 = 0)
    (hbody_rec : ∀ k, recordCount s (body k).1 = 0)
    (hfail_att : attemptCount failEvents = 0)
    (hfail_rec : recordCount s failEvents = 1) :
    ∀ fuel k,
      1 ≤ attemptCount (runTask body failEvents fuel k).1 ∧
      ((runTask body failEvents fuel k).2 = none →
        recordCount s (runTask body failEvents fuel k).1
          = attemptCount (runTask body failEvents fuel k).1 - 1) ∧
      ((runTask body failEvents fuel k).2 ≠ none →
        recordCount s (runTask body failEvents fuel k).1
          = attemptCount (runTask body failEvents fuel k).1) := by
  have hfa : List.countP Event.isAttempt failEvents = 0 := hfail_att
  have hfr : List.countP (fun ev => ev == Event.storeException s)
      failEvents = 1 := hfail_rec
  intro fuel
  induction fuel with
  | zero =>
    intro k
    unfold runTask
    rcases hb : body k with ⟨evs, r⟩
    simp only [hb]
    have ha : List.countP Event.isAttempt evs = 0 := by
      have := hbody_att k; rw [hb] at this; exact this
    have hc : List.countP (fun ev => ev == Event.storeException s)
        evs = 0 := by
      have := hbody_rec k; rw [hb] at this; exact this
    rcases r with e | _
    · simp [attemptCount, recordCount, List.countP_cons, List.countP_append,
        ha, hc, hfa, hfr, Event.isAttempt]
    · simp [attemptCount, recordCount, List.countP_cons, ha, hc,
        Event.isAttempt]
  | succ fuel ih =>
    intro k
    unfold runTask
    rcases hb : body k with ⟨evs, r⟩
    simp only [hb]
    have ha : List.countP Event.isAttempt evs = 0 := by
      have := hbody_att k; rw [hb] at this; exact this
    have hc : List.countP (fun ev => ev == Event.storeException s)
        evs = 0 := by
      have := hbody_rec k; rw [hb] at this; exact this
    rcases r with e | _
    · rcases hr : runTask body failEvents fuel (k + 1) with ⟨evs2, r2⟩
      simp only [hr]
      obtain ⟨h21, h22, h23⟩ := ih (k + 1)
      rw [hr] at h21 h22 h23
      have h21' : 1 ≤ List.countP Event.isAttempt evs2 := h21
      refine ⟨?_, ?_, ?_⟩
      · simp [attemptCount, List.countP_cons, Event.isAttempt]
      · intro h0
        have h0' : r2 = none := h0
        subst h0'
        have h22' : List.countP (fun ev => ev == Event.storeException s) evs2
            = List.countP Event.isAttempt evs2 - 1 := h22 rfl
        simp [attemptCount, recordCount, List.countP_cons,
          List.countP_append, ha, hc, hfa, hfr, Event.isAttempt, h22']
        omega
      · intro h0
        have h0' : r2 ≠ none := by
          intro hr2
          subst hr2
          exact h0 rfl
        have h23' : List.countP (fun ev => ev == Event.storeException s) evs2
            = List.countP Event.isAttempt evs2 := h23 h0'
        simp [attemptCount, recordCount, List.countP_cons,
          List.countP_append, ha, hc, hfa, hfr, Event.isAttempt, h23']
        omega
    · simp [attemptCount, recordCount, List.countP_cons, ha, hc,
        Event.isAttempt]

/-- Counterexample to C2: running the Account/Technology Task Executor
with a body whose watch path always raises a transient storage fault —
concretely, `reporter_logic` over a watcher whose snapshot fetch raises
`OperationalError` — executes the body 4 times (1 initial + 3 retries),
recording `"scheduler-exception-on-watch"` 4 times, before the exception
surfaces: the total attempts exceed 3. -/
theorem task_account_tech_four_attempts :
    attemptCount (task_account_tech_run false (fun _ _ => [snapFailMon])
      (fun _ _ => []) (Except.ok ()) "prod" "iamrole").1 = 4 ∧
    ¬ attemptCount (task_account_tech_run false (fun _ _ => [snapFailMon])
      (fun _ _ => []) (Except.ok ()) "prod" "iamrole").1 ≤ 3 ∧
    recordCount "scheduler-exception-on-watch"
      (task_account_tech_run false (fun _ _ => [snapFailMon])
        (fun _ _ => []) (Except.ok ()) "prod" "iamrole").1 = 4 ∧
    (task_account_tech_run false (fun _ _ => [snapFailMon])
      (fun _ _ => []) (Except.ok ()) "prod" "iamrole").2
      = some PyErr.operationalError := by
  refine ⟨?_, ?_, ?_, ?_⟩ <;> decide

/-- C2 as amended: on any exception the Account/Technology Task Executor
records the failure (source `"scheduler-exception-on-watch"`, one record
per failed attempt) and retries the whole unit, and the total number of
attempts (including the first) never exceeds 4 — the retry count never
exceeds 3. -/
theorem task_account_tech_retry_bound
    (body : Nat → List Event × Except PyErr Unit)
    (hbody_att : ∀ k, attemptCount (body k).1 = 0)
    (hbody_rec : ∀ k,
      recordCount "scheduler-exception-on-watch" (body k).1 = 0) :
    attemptCount (task_account_tech body).1 ≤ 4 ∧
    ((task_account_tech body).2 = none →
      recordCount "scheduler-exception-on-watch" (task_account_tech body).1
        = attemptCount (task_account_tech body).1 - 1) ∧
    ((task_account_tech body).2 ≠ none →
      recordCount "scheduler-exception-on-watch" (task_account_tech body).1
        = attemptCount (task_account_tech body).1) := by
  unfold task_account_tech
  refine ⟨runTask_attempt_bound body _ hbody_att (by decide) 3 0, ?_, ?_⟩
  · exact (runTask_records body _ "scheduler-exception-on-watch" hbody_att
      hbody_rec (by decide) (by decide) 3 0).2.1
  · exact (runTask_records body _ "scheduler-exception-on-watch" hbody_att
      hbody_rec (by decide) (by decide) 3 0).2.2

/-- Witness for the amended C2: a body that fails twice and then
succeeds is attempted 3 times with 2 records. -/
theorem task_account_tech_retry_bound_witness :
    (attemptCount (task_account_tech flakyBody).1 ≤ 4 ∧
      ((task_account_tech flakyBody).2 = none →
        recordCount "scheduler-exception-on-watch"
            (task_account_tech flakyBody).1
          = attemptCount (task_account_tech flakyBody).1 - 1) ∧
      ((task_account_tech flakyBody).2 ≠ none →
        recordCount "scheduler-exception-on-watch"
            (task_account_tech flakyBody).1
          = attemptCount (task_account_tech flakyBody).1)) ∧
    attemptCount (task_account_tech flakyBody).1 = 3 ∧
    (task_account_tech flakyBody).2 = none :=
  ⟨task_account_tech_retry_bound flakyBody
      (by intro k; unfold flakyBody; split <;> rfl)
      (by intro k; unfold flakyBody; split <;> rfl),
    by decide, by decide⟩

/-- Counterexample to C8: the Audit-Only Task Executor with an audit
body that always raises a non-storage exception — concretely,
`audit_changes` over a monitor whose auditor raises — is attempted 4
times (1 initial + 3 retries), recording `"scheduler-exception-on-audit"`
4 times: the total attempts exceed 3. -/
theorem task_audit_four_attempts :
    attemptCount (task_audit_run false (fun _ _ => [appFailMon])
      "prod" "s3").1 = 4 ∧
    ¬ attemptCount (task_audit_run false (fun _ _ => [appFailMon])
      "prod" "s3").1 ≤ 3 ∧
    recordCount "scheduler-exception-on-audit"
      (task_audit_run false (fun _ _ => [appFailMon]) "prod" "s3").1 = 4 ∧
    (task_audit_run false (fun _ _ => [appFailMon]) "prod" "s3").2
      = some (PyErr.other "boom") := by
  refine ⟨?_, ?_, ?_, ?_⟩ <;> decide

/-- C8 as amended: on any exception the Audit-Only Task Executor records
the failure (source `"scheduler-exception-on-audit"`, one record per
failed attempt) and the caught exception aborts the current attempt and
the unit is re-attempted (`Task.retry` raises internally even without
the `raise` keyword), with the same bound as the Account/Technology Task
Executor: at most 4 attempts in total — a retry count of at most 3. -/
theorem task_audit_retry_bound
    (body : Nat → List Event × Except PyErr Unit)
    (hbody_att : ∀ k, attemptCount (body k).1 = 0)
    (hbody_rec : ∀ k,
      recordCount "scheduler-exception-on-audit" (body k).1 = 0) :
    attemptCount (task_audit body).1 ≤ 4 ∧
    ((task_audit body).2 = none →
      recordCount "scheduler-exception-on-audit" (task_audit body).1
        = attemptCount (task_audit body).1 - 1) ∧
    ((task_audit body).2 ≠ none →
      recordCount "scheduler-exception-on-audit" (task_audit body).1
        = attemptCount (task_audit body).1) := by
  unfold task_audit
  refine ⟨runTask_attempt_bound body _ hbody_att (by decide) 3 0, ?_, ?_⟩
  · exact (runTask_records body _ "scheduler-exception-on-audit" hbody_att
      hbody_rec (by decide) (by decide) 3 0).2.1
  · exact (runTask_records body _ "scheduler-exception-on-audit" hbody_att
      hbody_rec (by decide) (by decide) 3 0).2.2

/-- Witness for the amended C8: the real audit body over a db-faulting
auditor is swallowed by `_audit_changes`, so the task succeeds on its
first attempt with no executor-level record. -/
theorem task_audit_retry_bound_witness :
    (attemptCount (task_audit_run false (fun _ _ => [dbFailMon])
        "prod" "sgroup").1 ≤ 4 ∧
      ((task_audit_run false (fun _ _ => [dbFailMon]) "prod" "sgroup").2
          = none →
        recordCount "scheduler-exception-on-audit"
            (task_audit_run false (fun _ _ => [dbFailMon]) "prod" "sgroup").1
          = attemptCount (task_audit_run false (fun _ _ => [dbFailMon])
              "prod" "sgroup").1 - 1) ∧
      ((task_audit_run false (fun _ _ => [dbFailMon]) "prod" "sgroup").2
          ≠ none →
        recordCount "scheduler-exception-on-audit"
            (task_audit_run false (fun _ _ => [dbFailMon]) "prod" "sgroup").1
          = attemptCount (task_audit_run false (fun _ _ => [dbFailMon])
              "prod" "sgroup").1)) ∧
    attemptCount (task_audit_run false (fun _ _ => [dbFailMon])
      "prod" "sgroup").1 = 1 :=
  ⟨task_audit_retry_bound _ (by intro k; rfl) (by intro k; rfl),
    by decide⟩

/-! ## C10: a watch-path storage fault is recorded twice -/

/-- Unfolding one failing attempt of the retry driver. -/
theorem runTask_step_error (body : Nat → List Event × Except PyErr Unit)
    (fe : List Event) (fuel fuel' k : Nat) (evs : List Event) (e : PyErr)
    (hfuel : fuel = fuel' + 1)
    (h : body k = (evs, Except.error e)) :
    runTask body fe fuel k
      = (Event.taskAttempt k :: evs ++ fe ++ (runTask body fe fuel' (k + 1)).1,
         (runTask body fe fuel' (k + 1)).2) := by
  subst hfuel
  conv_lhs => unfold runTask
  simp only [h]

/-- C10: a transient storage fault that escapes `find_changes` is caught
by `reporter_logic`, which removes the session, stores an
ExceptionRecord with source `"scheduler-task-account-tech"`, and
re-raises (first conjunct); the re-raised fault is then caught by
`task_account_tech`'s own except-clause, which stores a second record
with source `"scheduler-exception-on-watch"` before retrying: the first
attempt's trace carries both records for the single fault, in that
order (second conjunct). -/
theorem watch_path_db_fault_double_recorded (jira : Bool)
    (gm gmd : String → List String → List RMonitor)
    (alerter : Except PyErr Unit)
    (account_name technology_name : String) (evs : List Event) (e : PyErr)
    (hfc : find_changes jira gm gmd account_name technology_name
      = (evs, Except.error e))
    (hdb : e.isDbError = true) :
    reporter_logic jira gm gmd alerter account_name technology_name
      = (evs ++ [Event.sessionRemove,
          Event.storeException "scheduler-task-account-tech"],
         Except.error e) ∧
    ∃ rest, (task_account_tech_run jira gm gmd alerter account_name
        technology_name).1
      = (Event.taskAttempt 0
          :: (evs ++ [Event.sessionRemove,
              Event.storeException "scheduler-task-account-tech"]))
        ++ ([Event.storeException "scheduler-exception-on-watch"] ++ rest) := by
  have h1 : reporter_logic jira gm gmd alerter account_name technology_name
      = (evs ++ [Event.sessionRemove,
          Event.storeException "scheduler-task-account-tech"],
         Except.error e) := by
    unfold reporter_logic
    rw [hfc]
    simp [hdb]
  refine ⟨h1, (runTask
      (fun _ => reporter_logic jira gm gmd alerter account_name
        technology_name)
      [Event.storeException "scheduler-exception-on-watch"] 2 1).1, ?_⟩
  unfold task_account_tech_run task_account_tech
  rw [runTask_step_error _ _ 3 2 0 _ e rfl h1]
  simp

/-- Witness for C10 at a concrete db-faulting snapshot watcher. -/
theorem watch_path_db_fault_double_recorded_witness :
    reporter_logic false (fun _ _ => [snapFailMon]) (fun _ _ => [])
        (Except.ok ()) "prod" "iamrole"
      = ([] ++ [Event.sessionRemove,
          Event.storeException "scheduler-task-account-tech"],
         Except.error PyErr.operationalError) ∧
    ∃ rest, (task_account_tech_run false (fun _ _ => [snapFailMon])
        (fun _ _ => []) (Except.ok ()) "prod" "iamrole").1
      = (Event.taskAttempt 0
          :: ([] ++ [Event.sessionRemove,
              Event.storeException "scheduler-task-account-tech"]))
        ++ ([Event.storeException "scheduler-exception-on-watch"] ++ rest) :=
  watch_path_db_fault_double_recorded false (fun _ _ => [snapFailMon])
    (fun _ _ => []) (Except.ok ()) "prod" "iamrole" [] PyErr.operationalError
    rfl rfl

/-! ## C1: the bootstrapper's registrations -/

/-- Every registration produced for a monitor carries the account name
and the monitor's watcher index as its argument pair. -/
theorem mem_scheduleMonitor {t : ScheduledTask} {n : String} {m : Monitor}
    (h : t ∈ scheduleMonitor n m) :
    ∃ w, m.watcher = some w ∧ t.args = [n, w.index] := by
  unfold scheduleMonitor at h
  rcases hw : m.watcher with _ | w
  · rw [hw] at h
    simp at h
  · rw [hw] at h
    refine ⟨w, rfl, ?_⟩
    rcases hb : m.batch_support with _ | _ <;> rw [hb] at h <;> simp at h
    · rcases h with h | h | h <;> subst h <;> rfl
    · rcases h with h | h <;> subst h <;> rfl

/-- The registrations one monitor with a watcher contributes: one
immediate, one periodic at `get_interval() * 60` seconds, and a weekly
audit-only one iff the monitor is not batch-supporting. -/
theorem scheduleMonitor_count_self (n : String) (m : Monitor) (w : Watcher)
    (hw : m.watcher = some w) :
    (scheduleMonitor n m).count
        ⟨.accountTech, [n, w.index], .immediate⟩ = 1 ∧
    (scheduleMonitor n m).count
        ⟨.accountTech, [n, w.index],
          .everySeconds (w.get_interval * 60)⟩ = 1 ∧
    (scheduleMonitor n m).count
        ⟨.audit, [n, w.index], .weeklyCrontab 10 "mon-fri"⟩
      = (if m.batch_support then 0 else 1) := by
  unfold scheduleMonitor
  rw [hw]
  rcases hb : m.batch_support with _ | _ <;>
    simp [List.count_cons, beq_iff_eq]

/-- A monitor whose watcher index is not `idx` contributes no
registration whose arguments are `[n, idx]`. -/
theorem scheduleMonitor_count_zero (n : String) (idx : String)
    (m' : Monitor) (t : ScheduledTask) (hargs : t.args = [n, idx])
    (hmiss : ∀ w', m'.watcher = some w' → w'.index ≠ idx) :
    (scheduleMonitor n m').count t = 0 := by
  rw [List.count_eq_zero]
  intro hmem
  obtain ⟨w', hw', hargs'⟩ := mem_scheduleMonitor hmem
  rw [hargs] at hargs'
  simp at hargs'
  exact hmiss w' hw' hargs'.symm

/-- When the watcher indices of a monitor list are free of duplicates,
the registrations with arguments `[n, w.index]` are exactly the ones of
the (unique) monitor carrying `w`. -/
theorem flatMap_count_eq_self (l : List Monitor) (n : String) (m : Monitor)
    (w : Watcher) (hm : m ∈ l) (hw : m.watcher = some w)
    (hnodup : (l.filterMap (fun m' => m'.watcher.map Watcher.index)).Nodup)
    (t : ScheduledTask) (hargs : t.args = [n, w.index]) :
    (l.flatMap (scheduleMonitor n)).count t
      = (scheduleMonitor n m).count t := by
  obtain ⟨s, t', rfl⟩ := List.append_of_mem hm
  rw [List.filterMap_append] at hnodup
  simp only [List.filterMap_cons, hw, Option.map_some'] at hnodup
  rw [List.nodup_append] at hnodup
  obtain ⟨_, hcons, hdisj⟩ := hnodup
  rw [List.nodup_cons] at hcons
  have h1 : w.index ∉ s.filterMap (fun m' => m'.watcher.map Watcher.index) :=
    fun hmem => hdisj hmem (by simp)
  have h2 : w.index ∉ t'.filterMap (fun m' => m'.watcher.map Watcher.index) :=
    hcons.1
  have hzero : ∀ (ls : List Monitor),
      w.index ∉ ls.filterMap (fun m' => m'.watcher.map Watcher.index) →
      (ls.flatMap (scheduleMonitor n)).count t = 0 := by
    intro ls hnot
    rw [List.count_eq_zero]
    intro hmem
    rw [List.mem_flatMap] at hmem
    obtain ⟨m'', hm'', hmem'⟩ := hmem
    obtain ⟨w'', hw'', hargs''⟩ := mem_scheduleMonitor hmem'
    rw [hargs] at hargs''
    simp at hargs''
    apply hnot
    rw [List.mem_filterMap]
    exact ⟨m'', hm'', by rw [hw'']; simp [hargs''.symm]⟩
  rw [List.flatMap_append, List.flatMap_cons, List.count_append,
    List.count_append, hzero s h1, hzero t' h2]
  simp

/-- The janitor registration and the blocks of other accounts contribute
no registration with arguments `[a.name, idx]`; the whole schedule's
count of such a registration equals account `a`'s own block's count. -/
theorem setup_count_eq_account_block (accounts : List Account)
    (all_monitors : String → List Monitor)
    (hnames : (accounts.map Account.name).Nodup)
    (a : Account) (ha : a ∈ accounts) (hact : a.active = true)
    (hfp : a.third_party = false)
    (t : ScheduledTask) (idx : String) (hargs : t.args = [a.name, idx]) :
    (setup_the_tasks accounts all_monitors).count t
      = ((all_monitors a.name).flatMap (scheduleMonitor a.name)).count t := by
  have key : ∀ (ls : List Account), a.name ∉ ls.map Account.name →
      ((ls.flatMap (fun b => (all_monitors b.name).flatMap
        (scheduleMonitor b.name))).count t = 0) := by
    intro ls hnot
    rw [List.count_eq_zero]
    intro hmem
    rw [List.mem_flatMap] at hmem
    obtain ⟨b, hb, hmem'⟩ := hmem
    rw [List.mem_flatMap] at hmem'
    obtain ⟨m', hm', hmem''⟩ := hmem'
    obtain ⟨w', _, hargs'⟩ := mem_scheduleMonitor hmem''
    rw [hargs] at hargs'
    simp at hargs'
    apply hnot
    rw [List.mem_map]
    exact ⟨b, hb, hargs'.1.symm⟩
  unfold setup_the_tasks
  rw [List.count_append]
  have hj : ([(⟨.clearExpiredExceptions, [], .dailyCrontab 3 0⟩ :
      ScheduledTask)]).count t = 0 := by
    rw [List.count_eq_zero]
    intro hmem
    simp at hmem
    subst hmem
    simp at hargs
  rw [hj]
  have hmemf : a ∈ accounts.filter (fun a => !a.third_party && a.active) := by
    rw [List.mem_filter]
    refine ⟨ha, ?_⟩
    rw [hfp, hact]
    rfl
  obtain ⟨s, t', hsplit⟩ := List.append_of_mem hmemf
  have hfnames : ((accounts.filter
      (fun a => !a.third_party && a.active)).map Account.name).Nodup :=
    List.Nodup.sublist (List.Sublist.map Account.name
      (List.filter_sublist accounts)) hnames
  rw [hsplit] at hfnames
  rw [List.map_append, List.map_cons, List.nodup_append] at hfnames
  obtain ⟨_, hcons, hdisj⟩ := hfnames
  rw [List.nodup_cons] at hcons
  have hnotin_s : a.name ∉ s.map Account.name :=
    fun hmem => hdisj hmem (by simp)
  have hnotin_t : a.name ∉ t'.map Account.name := hcons.1
  rw [hsplit, List.flatMap_append, List.flatMap_cons, List.count_append,
    List.count_append, key s hnotin_s, key t' hnotin_t]
  simp

/-- C1: for every active, first-party account (account names being
unique) and every monitor of the account that has a watcher (watcher
indices of an account's monitors being unique), `setup_the_tasks`
registers exactly one immediate and exactly one periodic (at
`get_interval() * 60` seconds) execution of `task_account_tech` for the
(account, technology) pair, and exactly one weekly (Mon-Fri, 10:00)
execution of `task_audit` iff the monitor is not batch-supporting. -/
theorem setup_the_tasks_registrations (accounts : List Account)
    (all_monitors : String → List Monitor)
    (hnames : (accounts.map Account.name).Nodup)
    (a : Account) (ha : a ∈ accounts) (hact : a.active = true)
    (hfp : a.third_party = false)
    (hidx : ((all_monitors a.name).filterMap
      (fun m' => m'.watcher.map Watcher.index)).Nodup)
    (m : Monitor) (hm : m ∈ all_monitors a.name) (w : Watcher)
    (hw : m.watcher = some w) :
    (setup_the_tasks accounts all_monitors).count
        ⟨.accountTech, [a.name, w.index], .immediate⟩ = 1 ∧
    (setup_the_tasks accounts all_monitors).count
        ⟨.accountTech, [a.name, w.index],
          .everySeconds (w.get_interval * 60)⟩ = 1 ∧
    (setup_the_tasks accounts all_monitors).count
        ⟨.audit, [a.name, w.index], .weeklyCrontab 10 "mon-fri"⟩
      = (if m.batch_support then 0 else 1) := by
  obtain ⟨c1, c2, c3⟩ := scheduleMonitor_count_self a.name m w hw
  refine ⟨?_, ?_, ?_⟩ <;>
    rw [setup_count_eq_account_block accounts all_monitors hnames a ha hact
        hfp _ w.index rfl,
      flatMap_count_eq_self (all_monitors a.name) a.name m w hm hw hidx
        _ rfl]
  · exact c1
  · exact c2
  · exact c3

/-- Witness for C1: the spec's scenario account `"prod"` with a
non-batch `iamrole` monitor (15-minute interval) and a batch `s3`
monitor: one immediate and one 900-second periodic registration each,
and a weekly audit-only registration for `iamrole` only. -/
theorem setup_the_tasks_registrations_witness :
    ((setup_the_tasks [prodAccount] sampleMonitors).count
        ⟨.accountTech, ["prod", "iamrole"], .immediate⟩ = 1 ∧
      (setup_the_tasks [prodAccount] sampleMonitors).count
        ⟨.accountTech, ["prod", "iamrole"], .everySeconds 900⟩ = 1 ∧
      (setup_the_tasks [prodAccount] sampleMonitors).count
        ⟨.audit, ["prod", "iamrole"], .weeklyCrontab 10 "mon-fri"⟩ = 1) ∧
    (setup_the_tasks [prodAccount] sampleMonitors).count
        ⟨.audit, ["prod", "s3"], .weeklyCrontab 10 "mon-fri"⟩ = 0 := by
  constructor
  · have h := setup_the_tasks_registrations [prodAccount] sampleMonitors
      (by decide) prodAccount (by decide) rfl rfl (by decide)
      iamMonitor (by decide) ⟨"iamrole", 15⟩ rfl
    exact ⟨h.1, h.2.1, h.2.2⟩
  · have h := setup_the_tasks_registrations [prodAccount] sampleMonitors
      (by decide) prodAccount (by decide) rfl rfl (by decide)
      s3Monitor (by decide) ⟨"s3", 60⟩ rfl
    exact h.2.2

end SecMonkey
